import Mathlib

/-!
Shallow embedding of `jesse/models/Order.py` (the order-lifecycle model).

The Python class `Order` holds the record's fields and five lifecycle
methods (`queue`, `resubmit`, `cancel`, `execute`, `execute_partially`)
plus derived read-only properties (`value`, `remaining_qty`,
`is_canceled`, ...).  The methods mutate `self` and call out to ambient
collaborators (logger, notifier, the completed-trades store, the
exchange object and the position object fetched from global selectors).

Here each method becomes a pure function `Env → ... → Order → Order × List Event`:
the returned `Order` is the record after the mutations, and the
`List Event` is the ordered trace of collaborator calls the method makes
(each event carries the record snapshot passed to the collaborator).
The ambient state the methods read (clock `jh.now_to_timestamp()`,
debug flags `jh.is_debuggable(...)`, `jh.is_live()`, notification
config, and the position registry consulted by
`selectors.get_position(exchange, symbol)`) is an explicit `Env`.
`resubmit`, which raises `NotSupportedError` before any mutation when
the order is not queued, returns `Except Order (Order × List Event)`;
the error value is the record exactly as the exception leaves it.
Floats are embedded as `ℚ`, timestamps as `Int`, ids as `Nat`.
-/

namespace Jesse

/-- The five order statuses of `jesse.enums.order_statuses`. -/
inductive OrderStatus where
  | active
  | queued
  | partiallyFilled
  | executed
  | canceled
deriving DecidableEq, Repr

/-- The fields of the `Order` model (`Order.py` lines 16-40). -/
structure Order where
  id : Nat
  trade_id : Option Nat
  session_id : Nat
  exchange_id : Option String
  vars : List (String × String)
  symbol : String
  exchange : String
  side : String
  type : String
  reduce_only : Bool
  qty : ℚ
  filled_qty : ℚ
  price : Option ℚ
  status : OrderStatus
  created_at : Int
  executed_at : Option Int
  canceled_at : Option Int
  submitted_via : Option String
deriving DecidableEq, Repr

/-- Ambient state read by the lifecycle methods: the clock, the debug
and live-mode flags, the notification config, and the position registry
(`selectors.get_position` keyed by exchange and symbol; `true` means a
position object exists). -/
structure Env where
  now : Int
  isLive : Bool
  debugOrderSubmission : Bool
  debugOrderCancellation : Bool
  debugOrderExecution : Bool
  notifySubmittedOrders : Bool
  notifyCancelledOrders : Bool
  notifyExecutedOrders : Bool
  positions : String → String → Bool

/-- One collaborator call made by a lifecycle method, carrying the
record snapshot passed to the collaborator:
`logInfo` = `logger.info`, `notify` = `jesse.services.notifier.notify`,
`recordExecuted` = `store.completed_trades.add_executed_order`,
`onOrderExecution` / `onOrderCancellation` = the exchange accounting
callbacks, `onExecuted` = `position._on_executed_order`. -/
inductive Event where
  | logInfo (o : Order)
  | notify (o : Order)
  | recordExecuted (o : Order)
  | onOrderExecution (o : Order)
  | onOrderCancellation (o : Order)
  | onExecuted (o : Order)
deriving DecidableEq, Repr

/-- `Order.is_canceled`. -/
def Order.is_canceled (o : Order) : Bool :=
  o.status == OrderStatus.canceled

/-- `Order.is_active`. -/
def Order.is_active (o : Order) : Bool :=
  o.status == OrderStatus.active

/-- `Order.is_queued`. -/
def Order.is_queued (o : Order) : Bool :=
  o.status == OrderStatus.queued

/-- `Order.is_executed`. -/
def Order.is_executed (o : Order) : Bool :=
  o.status == OrderStatus.executed

/-- `Order.is_partially_filled`. -/
def Order.is_partially_filled (o : Order) : Bool :=
  o.status == OrderStatus.partiallyFilled

/-- `Order.is_cancellable`: active or partially filled. -/
def Order.is_cancellable (o : Order) : Bool :=
  o.is_active || o.is_partially_filled

/-- Python truthiness of `self.price` (`if self.price:`): false when the
price is `None` and when it is `0`. -/
def Order.priceTruthy (o : Order) : Bool :=
  match o.price with
  | none => false
  | some p => p != 0

/-- `Order.value`: `abs(self.qty) * self.price`.  The Python expression
raises `TypeError` when `price` is `None`; that partiality is embedded
as `Option`: `none` is the error branch. -/
def Order.value (o : Order) : Option ℚ :=
  o.price.map (fun p => |o.qty| * p)

/-- Modelled from the spec: the helper `jh.prepare_qty` ("prepare
quantity for side") is not under `src/`; per the spec it takes the
quantity's absolute value and re-applies the sign appropriate to the
side (negative for the sell side, positive for the buy side). -/
def prepare_qty (q : ℚ) (side : String) : ℚ :=
  if side == "sell" || side == "short" then -|q|
  else |q|

/-- `Order.remaining_qty`:
`jh.prepare_qty(abs(self.qty) - abs(self.filled_qty), self.side)`. -/
def Order.remaining_qty (o : Order) : ℚ :=
  prepare_qty (|o.qty| - |o.filled_qty|) o.side

/-- `Order.notify_submission`: notifies when the submitted-orders config
flag is on and the order is active or queued. -/
def notify_submission (env : Env) (o : Order) : List Event :=
  if env.notifySubmittedOrders && (o.is_active || o.is_queued) then
    [Event.notify o]
  else []

/-- `Order.queue` (lines 165-173): sets status to Queued, clears
`canceled_at`, logs when the debug flag is on (the source nests
`logger.info` inside `if self.price:`, so the log fires only when the
price is truthy), then calls `notify_submission`. -/
def Order.queue (env : Env) (o : Order) : Order × List Event :=
  let o' := { o with status := OrderStatus.queued, canceled_at := none }
  let logEvs :=
    if env.debugOrderSubmission && o'.priceTruthy then [Event.logInfo o'] else []
  (o', logEvs ++ notify_submission env o')

/-- `Order.resubmit` (lines 175-189): raises `NotSupportedError` when
the order is not queued (before any mutation: the error value is the
unchanged record); otherwise regenerates the id, sets status to Active,
clears `canceled_at`, logs (same nesting as `queue`), and calls
`notify_submission`. -/
def Order.resubmit (env : Env) (newId : Nat) (o : Order) :
    Except Order (Order × List Event) :=
  if !o.is_queued then Except.error o
  else
    let o' := { o with id := newId, status := OrderStatus.active,
                       canceled_at := none }
    let logEvs :=
      if env.debugOrderSubmission && o'.priceTruthy then [Event.logInfo o'] else []
    Except.ok (o', logEvs ++ notify_submission env o')

/-- `Order.cancel` (lines 191-217): returns untouched when already
canceled or executed, or when the source is "stream" and the order is
queued; otherwise stamps `canceled_at`, sets status to Canceled, logs
and notifies unless silenced, and calls the exchange's
`on_order_cancellation`. -/
def Order.cancel (env : Env) (silent : Bool) (source : String) (o : Order) :
    Order × List Event :=
  if o.is_canceled || o.is_executed then (o, [])
  else if source == "stream" && o.is_queued then (o, [])
  else
    let o' := { o with canceled_at := some env.now,
                       status := OrderStatus.canceled }
    let msgEvs :=
      if !silent then
        (if env.debugOrderCancellation then [Event.logInfo o'] else []) ++
        (if env.isLive && env.notifyCancelledOrders then [Event.notify o'] else [])
      else []
    (o', msgEvs ++ [Event.onOrderCancellation o'])

/-- `Order.execute` (lines 219-251): returns untouched when already
canceled or executed; otherwise stamps `executed_at`, sets status to
Executed, logs and notifies unless silenced, then records the executed
order in the completed-trades store, calls the exchange's
`on_order_execution`, and calls the position's `_on_executed_order`
when a position exists for (exchange, symbol). -/
def Order.execute (env : Env) (silent : Bool) (o : Order) :
    Order × List Event :=
  if o.is_canceled || o.is_executed then (o, [])
  else
    let o' := { o with executed_at := some env.now,
                       status := OrderStatus.executed }
    let msgEvs :=
      if !silent then
        (if env.debugOrderExecution then [Event.logInfo o'] else []) ++
        (if env.isLive && env.notifyExecutedOrders then [Event.notify o'] else [])
      else []
    (o', msgEvs ++ [Event.recordExecuted o', Event.onOrderExecution o'] ++
      (if env.positions o'.exchange o'.symbol then [Event.onExecuted o'] else []))

/-- `Order.execute_partially` (lines 253-277): no status guard; stamps
`executed_at`, sets status to PartiallyFilled, logs and notifies unless
silenced, records the executed order in the completed-trades store, and
calls the position's `_on_executed_order` when a position exists.  It
does not modify `filled_qty`. -/
def Order.execute_partially (env : Env) (silent : Bool) (o : Order) :
    Order × List Event :=
  let o' := { o with executed_at := some env.now,
                     status := OrderStatus.partiallyFilled }
  let msgEvs :=
    if !silent then
      (if env.debugOrderExecution then [Event.logInfo o'] else []) ++
      (if env.isLive && env.notifyExecutedOrders then [Event.notify o'] else [])
    else []
  (o', msgEvs ++ [Event.recordExecuted o'] ++
    (if env.positions o'.exchange o'.symbol then [Event.onExecuted o'] else []))

/-- One lifecycle operation, for reasoning about operation sequences. -/
inductive Op where
  | queue
  | resubmit (newId : Nat)
  | cancel (silent : Bool) (source : String)
  | execute (silent : Bool)
  | executePartially (silent : Bool)

/-- Apply one lifecycle operation to the record, keeping only the
record.  A `resubmit` that raises leaves the record unchanged. -/
def applyOp (env : Env) (o : Order) : Op → Order
  | Op.queue => (Order.queue env o).1
  | Op.resubmit newId =>
      match Order.resubmit env newId o with
      | Except.ok r => r.1
      | Except.error e => e
  | Op.cancel silent source => (Order.cancel env silent source o).1
  | Op.execute silent => (Order.execute env silent o).1
  | Op.executePartially silent => (Order.execute_partially env silent o).1

/-- Run a sequence of lifecycle operations, each under its own ambient
environment. -/
def run (steps : List (Env × Op)) (o : Order) : Order :=
  steps.foldl (fun acc st => applyOp st.1 acc st.2) o

/-- A fresh record: both timestamps null and status Active or Queued
(the two construction-time statuses). -/
def Order.fresh (o : Order) : Prop :=
  o.executed_at = none ∧ o.canceled_at = none ∧
    (o.status = OrderStatus.active ∨ o.status = OrderStatus.queued)

instance (o : Order) : Decidable o.fresh := by
  unfold Order.fresh
  infer_instance

/-- The forward status/timestamp implications that every lifecycle
operation preserves. -/
def statusTimestampInv (o : Order) : Prop :=
  ((o.status = OrderStatus.executed ∨ o.status = OrderStatus.partiallyFilled) →
    o.executed_at ≠ none) ∧
  (o.status = OrderStatus.canceled → o.canceled_at ≠ none)

/-- The core correctness-relevant collaborator calls named by the spec:
ledger (`recordExecuted`), accounting (`onOrderExecution`), position
(`onExecuted`).  Logging and notification events are not core. -/
def isCoreEffect : Event → Bool
  | Event.recordExecuted _ => true
  | Event.onOrderExecution _ => true
  | Event.onExecuted _ => true
  | _ => false

/-- A concrete ambient environment for concrete evaluations. -/
def sampleEnv : Env where
  now := 1000
  isLive := true
  debugOrderSubmission := false
  debugOrderCancellation := false
  debugOrderExecution := false
  notifySubmittedOrders := false
  notifyCancelledOrders := false
  notifyExecutedOrders := false
  positions := fun _ _ => true

/-- A concrete fresh sell order (requested qty -2, price 100, Active). -/
def sampleOrder : Order where
  id := 1
  trade_id := none
  session_id := 7
  exchange_id := none
  vars := []
  symbol := "BTC-USDT"
  exchange := "Sandbox"
  side := "sell"
  type := "LIMIT"
  reduce_only := false
  qty := -2
  filled_qty := 0
  price := some 100
  status := OrderStatus.active
  created_at := 500
  executed_at := none
  canceled_at := none
  submitted_via := none

/-- A concrete already-canceled order. -/
def sampleCanceledOrder : Order :=
  { sampleOrder with status := OrderStatus.canceled, canceled_at := some 900 }

/-- A concrete queued order. -/
def sampleQueuedOrder : Order :=
  { sampleOrder with status := OrderStatus.queued }

/-- Helper: on an already-canceled or already-executed order, `cancel`
returns the record untouched with no collaborator calls. -/
theorem Order.cancel_terminal_eq (env : Env) (silent : Bool) (source : String)
    (o : Order)
    (h : o.status = OrderStatus.canceled ∨ o.status = OrderStatus.executed) :
    Order.cancel env silent source o = (o, []) := by
  rcases h with h | h <;>
    simp [Order.cancel, Order.is_canceled, Order.is_executed, h]

/-- Helper: on an already-canceled or already-executed order, `execute`
returns the record untouched with no collaborator calls. -/
theorem Order.execute_terminal_eq (env : Env) (silent : Bool) (o : Order)
    (h : o.status = OrderStatus.canceled ∨ o.status = OrderStatus.executed) :
    Order.execute env silent o = (o, []) := by
  rcases h with h | h <;>
    simp [Order.execute, Order.is_canceled, Order.is_executed, h]

/-- Helper: after `execute` the record is always Canceled or Executed. -/
theorem Order.execute_fst_status (env : Env) (silent : Bool) (o : Order) :
    (Order.execute env silent o).1.status = OrderStatus.canceled ∨
    (Order.execute env silent o).1.status = OrderStatus.executed := by
  unfold Order.execute
  split
  · next h =>
    rcases (by simpa using h :
        o.is_canceled = true ∨ o.is_executed = true) with h' | h'
    · exact Or.inl (by simpa [Order.is_canceled] using h')
    · exact Or.inr (by simpa [Order.is_executed] using h')
  · exact Or.inr rfl

/-- Helper: after a `cancel` that is not blocked by the stream-queued
guard, the record is always Canceled or Executed. -/
theorem Order.cancel_fst_status (env : Env) (silent : Bool) (source : String)
    (o : Order)
    (h : ¬(source = "stream" ∧ o.status = OrderStatus.queued)) :
    (Order.cancel env silent source o).1.status = OrderStatus.canceled ∨
    (Order.cancel env silent source o).1.status = OrderStatus.executed := by
  unfold Order.cancel
  split
  · next hterm =>
    rcases (by simpa using hterm :
        o.is_canceled = true ∨ o.is_executed = true) with h' | h'
    · exact Or.inl (by simpa [Order.is_canceled] using h')
    · exact Or.inr (by simpa [Order.is_executed] using h')
  · split
    · next hstream =>
      rcases (by simpa using hstream :
          source = "stream" ∧ o.is_queued = true) with ⟨h1, h2⟩
      exact absurd ⟨h1, by simpa [Order.is_queued] using h2⟩ h
    · exact Or.inl rfl

/-- Helper: `resubmit` on a non-queued order raises, leaving the record
unchanged. -/
theorem Order.resubmit_error_of_not_queued (env : Env) (newId : Nat)
    (o : Order) (h : o.status ≠ OrderStatus.queued) :
    Order.resubmit env newId o = Except.error o := by
  have hq : o.is_queued = false := by
    simp [Order.is_queued]
    exact h
  simp [Order.resubmit, hq]

/-- Helper: `resubmit` on a queued order succeeds and produces the
record with the new id, status Active and `canceled_at` cleared. -/
theorem Order.resubmit_ok_of_queued (env : Env) (newId : Nat) (o : Order)
    (h : o.status = OrderStatus.queued) :
    ∃ evs, Order.resubmit env newId o =
      Except.ok ({ o with id := newId, status := OrderStatus.active,
                          canceled_at := none }, evs) := by
  have hq : o.is_queued = true := by simp [Order.is_queued, h]
  simp [Order.resubmit, hq]

/-- C5: `cancel` and `execute` are no-ops (identical record, empty
event trace) on orders already Canceled or Executed; consequently a
second `execute` after an `execute`, or a second `cancel` after a
`cancel` not blocked by the stream-queued guard, returns the same
record and fires no collaborator calls. -/
theorem cancel_execute_idempotent (env1 env2 : Env) (s1 s2 : Bool)
    (src1 src2 : String) (o : Order) :
    ((o.status = OrderStatus.canceled ∨ o.status = OrderStatus.executed) →
      Order.cancel env1 s1 src1 o = (o, []) ∧
      Order.execute env1 s1 o = (o, [])) ∧
    Order.execute env2 s2 (Order.execute env1 s1 o).1 =
      ((Order.execute env1 s1 o).1, []) ∧
    (¬(src1 = "stream" ∧ o.status = OrderStatus.queued) →
      Order.cancel env2 s2 src2 (Order.cancel env1 s1 src1 o).1 =
        ((Order.cancel env1 s1 src1 o).1, [])) :=
  ⟨fun h => ⟨Order.cancel_terminal_eq env1 s1 src1 o h,
             Order.execute_terminal_eq env1 s1 o h⟩,
   Order.execute_terminal_eq env2 s2 _ (Order.execute_fst_status env1 s1 o),
   fun h => Order.cancel_terminal_eq env2 s2 src2 _
     (Order.cancel_fst_status env1 s1 src1 o h)⟩

/-- C5 witness: on the concrete canceled order both operations are
no-ops; on the concrete Active order the second `execute` after an
`execute` and the second `cancel` after a `cancel` are no-ops. -/
theorem cancel_execute_idempotent_witness :
    (Order.cancel sampleEnv false "" sampleCanceledOrder =
      (sampleCanceledOrder, []) ∧
     Order.execute sampleEnv false sampleCanceledOrder =
      (sampleCanceledOrder, [])) ∧
    Order.execute sampleEnv false (Order.execute sampleEnv false sampleOrder).1 =
      ((Order.execute sampleEnv false sampleOrder).1, []) ∧
    Order.cancel sampleEnv false ""
        (Order.cancel sampleEnv false "" sampleOrder).1 =
      ((Order.cancel sampleEnv false "" sampleOrder).1, []) :=
  ⟨(cancel_execute_idempotent sampleEnv sampleEnv false false "" ""
      sampleCanceledOrder).1 (Or.inl (by decide)),
   (cancel_execute_idempotent sampleEnv sampleEnv false false "" ""
      sampleOrder).2.1,
   (cancel_execute_idempotent sampleEnv sampleEnv false false "" ""
      sampleOrder).2.2 (by decide)⟩

/-- C6 counterexample: `cancel` with source "stream" is also a no-op on
the concrete already-canceled order, whose status is not Queued, so
"no-op exactly when status is Queued" fails as a statement about all
statuses. -/
theorem stream_cancel_queued_only_cex :
    Order.cancel sampleEnv false "stream" sampleCanceledOrder =
      (sampleCanceledOrder, []) ∧
    sampleCanceledOrder.status ≠ OrderStatus.queued := by
  decide

/-- C6 (amended): among orders not already Canceled or Executed,
`cancel` with source "stream" is a no-op exactly when the status is
Queued; for Active and PartiallyFilled it cancels as usual, stamping
`canceled_at` with the current time.  (Already-terminal orders are
no-ops for every source, by the idempotence guard.) -/
theorem stream_cancel_queued_only (env : Env) (silent : Bool) (o : Order)
    (h : ¬(o.status = OrderStatus.canceled ∨ o.status = OrderStatus.executed)) :
    (Order.cancel env silent "stream" o = (o, []) ↔
      o.status = OrderStatus.queued) ∧
    ((o.status = OrderStatus.active ∨ o.status = OrderStatus.partiallyFilled) →
      (Order.cancel env silent "stream" o).1.status = OrderStatus.canceled ∧
      (Order.cancel env silent "stream" o).1.canceled_at = some env.now) := by
  push_neg at h
  constructor
  · constructor
    · intro hc
      by_contra hq
      rcases Order.cancel_fst_status env silent "stream" o
          (fun hx => hq hx.2) with h' | h'
      · rw [hc] at h'
        exact h.1 h'
      · rw [hc] at h'
        exact h.2 h'
    · intro hq
      simp [Order.cancel, Order.is_canceled, Order.is_executed,
        Order.is_queued, hq]
  · rintro (hs | hs) <;>
      simp [Order.cancel, Order.is_canceled, Order.is_executed,
        Order.is_queued, hs]

/-- C6 witness: the stream-tagged cancel is a no-op on the concrete
queued order, and cancels the concrete Active order as usual. -/
theorem stream_cancel_queued_only_witness :
    Order.cancel sampleEnv false "stream" sampleQueuedOrder =
      (sampleQueuedOrder, []) ∧
    (Order.cancel sampleEnv false "stream" sampleOrder).1.status =
      OrderStatus.canceled ∧
    (Order.cancel sampleEnv false "stream" sampleOrder).1.canceled_at =
      some sampleEnv.now :=
  ⟨(stream_cancel_queued_only sampleEnv false sampleQueuedOrder
      (by decide)).1.mpr (by decide),
   (stream_cancel_queued_only sampleEnv false sampleOrder
      (by decide)).2 (Or.inl (by decide))⟩

/-- C8 counterexample: `queue` applied to the concrete already-canceled
order changes both the status (to Queued) and a timestamp (clears
`canceled_at`), so terminal states are not closed under `queue`. -/
theorem terminal_mutation_cex :
    sampleCanceledOrder.status = OrderStatus.canceled ∧
    (Order.queue sampleEnv sampleCanceledOrder).1.status =
      OrderStatus.queued ∧
    (Order.queue sampleEnv sampleCanceledOrder).1.status ≠
      sampleCanceledOrder.status ∧
    sampleCanceledOrder.canceled_at = some 900 ∧
    (Order.queue sampleEnv sampleCanceledOrder).1.canceled_at = none := by
  decide

/-- C8 (amended): on a terminal (Canceled or Executed) order, `cancel`
and `execute` mutate nothing and fire no collaborator calls, and
`resubmit` raises leaving the record unchanged; but `queue` and
`execute_partially` have no terminal guard: `queue` sets the status to
Queued and clears `canceled_at`, and `execute_partially` sets the
status to PartiallyFilled and stamps `executed_at`, even on terminal
orders. -/
theorem terminal_mutation (env : Env) (silent : Bool) (source : String)
    (newId : Nat) (o : Order)
    (h : o.status = OrderStatus.canceled ∨ o.status = OrderStatus.executed) :
    Order.cancel env silent source o = (o, []) ∧
    Order.execute env silent o = (o, []) ∧
    Order.resubmit env newId o = Except.error o ∧
    (Order.queue env o).1.status = OrderStatus.queued ∧
    (Order.queue env o).1.canceled_at = none ∧
    (Order.execute_partially env silent o).1.status =
      OrderStatus.partiallyFilled ∧
    (Order.execute_partially env silent o).1.executed_at = some env.now := by
  refine ⟨Order.cancel_terminal_eq env silent source o h,
    Order.execute_terminal_eq env silent o h,
    Order.resubmit_error_of_not_queued env newId o ?_, rfl, rfl, rfl, rfl⟩
  rcases h with h | h <;> simp [h]

/-- C8 witness: the amended statement evaluated on the concrete
canceled order. -/
theorem terminal_mutation_witness :
    (sampleCanceledOrder.status = OrderStatus.canceled ∨
      sampleCanceledOrder.status = OrderStatus.executed) ∧
    Order.cancel sampleEnv false "" sampleCanceledOrder =
      (sampleCanceledOrder, []) ∧
    Order.execute sampleEnv false sampleCanceledOrder =
      (sampleCanceledOrder, []) ∧
    Order.resubmit sampleEnv 9 sampleCanceledOrder =
      Except.error sampleCanceledOrder ∧
    (Order.queue sampleEnv sampleCanceledOrder).1.status =
      OrderStatus.queued ∧
    (Order.queue sampleEnv sampleCanceledOrder).1.canceled_at = none ∧
    (Order.execute_partially sampleEnv false sampleCanceledOrder).1.status =
      OrderStatus.partiallyFilled ∧
    (Order.execute_partially sampleEnv false
      sampleCanceledOrder).1.executed_at = some sampleEnv.now :=
  ⟨Or.inl rfl,
   terminal_mutation sampleEnv false "" 9 sampleCanceledOrder (Or.inl rfl)⟩

/-- C9: `remaining_qty` equals the "prepare quantity for side" helper
applied to `|requested qty| - |filled qty|`; on the sell side that is
the negated absolute difference, on the buy side the absolute
difference; in particular a sell order with qty -2 and filled qty 1 has
remaining qty -1.  (`remaining_qty` is a pure total function of the
fields by construction: it returns a `ℚ` and emits no events.) -/
theorem remaining_qty_spec (o : Order) :
    Order.remaining_qty o = prepare_qty (|o.qty| - |o.filled_qty|) o.side ∧
    (o.side = "sell" → Order.remaining_qty o = -|(|o.qty| - |o.filled_qty|)|) ∧
    (o.side = "buy" → Order.remaining_qty o = |(|o.qty| - |o.filled_qty|)|) ∧
    (o.side = "sell" ∧ o.qty = -2 ∧ o.filled_qty = 1 →
      Order.remaining_qty o = -1) := by
  refine ⟨rfl, ?_, ?_, ?_⟩
  · intro h
    simp [Order.remaining_qty, prepare_qty, h]
  · intro h
    simp [Order.remaining_qty, prepare_qty, h]
  · rintro ⟨hs, hq, hf⟩
    simp [Order.remaining_qty, prepare_qty, hs, hq, hf]
    norm_num

/-- C9 witness: the concrete sell order with qty -2 and filled qty 1
has remaining qty -1. -/
theorem remaining_qty_spec_witness :
    Order.remaining_qty { sampleOrder with filled_qty := 1 } = -1 :=
  (remaining_qty_spec { sampleOrder with filled_qty := 1 }).2.2.2
    ⟨rfl, rfl, rfl⟩

/-- C10: with a non-null price, `value` is `|qty| * price`; with a null
price the unguarded multiplication's error branch is reached (embedded
as `none`), so `value` is not total without the non-null-price
precondition. -/
theorem value_notional (o : Order) :
    (∀ p, o.price = some p → Order.value o = some (|o.qty| * p)) ∧
    (o.price = none → Order.value o = none) := by
  constructor
  · intro p hp
    simp [Order.value, hp]
  · intro hp
    simp [Order.value, hp]

/-- C10 witness: the sample order (price 100) has value `|qty| * 100`;
the same order with price removed reaches the error branch. -/
theorem value_notional_witness :
    Order.value sampleOrder = some (|sampleOrder.qty| * 100) ∧
    Order.value { sampleOrder with price := none } = none :=
  ⟨(value_notional sampleOrder).1 100 rfl,
   (value_notional { sampleOrder with price := none }).2 rfl⟩

/-- C3: `resubmit` fails (raising `NotSupportedError`, embedded as
`Except.error`) exactly when the order is not Queued, and the error
value is the record unchanged, field for field.  The other lifecycle
operations are total functions in this embedding, as in the source:
only `resubmit` has a raise statement. -/
theorem resubmit_invalid_iff (env : Env) (newId : Nat) (o : Order) :
    (Order.resubmit env newId o = Except.error o ↔
      o.status ≠ OrderStatus.queued) ∧
    (∀ e, Order.resubmit env newId o = Except.error e → e = o) := by
  by_cases h : o.status = OrderStatus.queued
  · constructor
    · simp [Order.resubmit, Order.is_queued, h]
    · intro e he
      simp [Order.resubmit, Order.is_queued, h] at he
  · constructor
    · simp [Order.resubmit, Order.is_queued, h]
    · intro e he
      simp [Order.resubmit, Order.is_queued, h] at he
      exact he.symm

/-- C3 witness: resubmitting the concrete Active order fails with the
record unchanged. -/
theorem resubmit_invalid_iff_witness :
    Order.resubmit sampleEnv 2 sampleOrder = Except.error sampleOrder :=
  (resubmit_invalid_iff sampleEnv 2 sampleOrder).1.mpr (by decide)

/-- C2 counterexample: on the concrete fresh Active order (a
non-terminal state), `execute_partially` leaves `filled_qty` exactly as
it was (0), so the operation does not increase `filled_qty`. -/
theorem execute_partially_no_fill_increase_cex :
    sampleOrder.status = OrderStatus.active ∧
    sampleOrder.filled_qty = 0 ∧
    (Order.execute_partially sampleEnv false sampleOrder).1.filled_qty = 0 := by
  decide

/-- C2 (amended): for every order in a non-terminal state,
`execute_partially` sets `executed_at` to the current time and leaves
the order PartiallyFilled; it does not modify `filled_qty` (the caller
updates the filled quantity separately). -/
theorem execute_partially_effect (env : Env) (silent : Bool) (o : Order)
    (_h : ¬(o.status = OrderStatus.canceled ∨ o.status = OrderStatus.executed)) :
    (Order.execute_partially env silent o).1.executed_at = some env.now ∧
    (Order.execute_partially env silent o).1.status = OrderStatus.partiallyFilled ∧
    (Order.execute_partially env silent o).1.filled_qty = o.filled_qty :=
  ⟨rfl, rfl, rfl⟩

/-- C2 witness: the amended effect evaluated on the concrete Active
order. -/
theorem execute_partially_effect_witness :
    (Order.execute_partially sampleEnv false sampleOrder).1.executed_at =
      some sampleEnv.now ∧
    (Order.execute_partially sampleEnv false sampleOrder).1.status =
      OrderStatus.partiallyFilled ∧
    (Order.execute_partially sampleEnv false sampleOrder).1.filled_qty =
      sampleOrder.filled_qty :=
  execute_partially_effect sampleEnv false sampleOrder (by decide)

/-- C4: `resubmit` on a Queued order succeeds and produces the record
with the freshly generated id (different from the old one whenever the
generator returns a new id), status Active, `canceled_at` cleared, and
every other field unchanged. -/
theorem resubmit_from_queued (env : Env) (newId : Nat) (o : Order)
    (h : o.status = OrderStatus.queued) (hid : newId ≠ o.id) :
    ∃ o' evs, Order.resubmit env newId o = Except.ok (o', evs) ∧
      o'.id = newId ∧ o'.id ≠ o.id ∧
      o'.status = OrderStatus.active ∧ o'.canceled_at = none ∧
      o'.symbol = o.symbol ∧ o'.exchange = o.exchange ∧ o'.side = o.side ∧
      o'.type = o.type ∧ o'.qty = o.qty ∧ o'.filled_qty = o.filled_qty ∧
      o'.price = o.price ∧ o'.created_at = o.created_at ∧
      o'.executed_at = o.executed_at ∧ o'.trade_id = o.trade_id ∧
      o'.session_id = o.session_id ∧ o'.reduce_only = o.reduce_only ∧
      o'.exchange_id = o.exchange_id ∧ o'.vars = o.vars ∧
      o'.submitted_via = o.submitted_via := by
  rcases Order.resubmit_ok_of_queued env newId o h with ⟨evs, hok⟩
  exact ⟨_, evs, hok, rfl, hid, rfl, rfl, rfl, rfl, rfl, rfl, rfl, rfl,
    rfl, rfl, rfl, rfl, rfl, rfl, rfl, rfl, rfl⟩

/-- C4 witness: resubmitting the concrete queued order with fresh id 42
yields an Active record with id 42 and all other fields unchanged. -/
theorem resubmit_from_queued_witness :
    sampleQueuedOrder.status = OrderStatus.queued ∧
    (42 : Nat) ≠ sampleQueuedOrder.id ∧
    ∃ o' evs, Order.resubmit sampleEnv 42 sampleQueuedOrder =
        Except.ok (o', evs) ∧
      o'.id = 42 ∧ o'.id ≠ sampleQueuedOrder.id ∧
      o'.status = OrderStatus.active ∧ o'.canceled_at = none ∧
      o'.symbol = sampleQueuedOrder.symbol ∧
      o'.exchange = sampleQueuedOrder.exchange ∧
      o'.side = sampleQueuedOrder.side ∧
      o'.type = sampleQueuedOrder.type ∧
      o'.qty = sampleQueuedOrder.qty ∧
      o'.filled_qty = sampleQueuedOrder.filled_qty ∧
      o'.price = sampleQueuedOrder.price ∧
      o'.created_at = sampleQueuedOrder.created_at ∧
      o'.executed_at = sampleQueuedOrder.executed_at ∧
      o'.trade_id = sampleQueuedOrder.trade_id ∧
      o'.session_id = sampleQueuedOrder.session_id ∧
      o'.reduce_only = sampleQueuedOrder.reduce_only ∧
      o'.exchange_id = sampleQueuedOrder.exchange_id ∧
      o'.vars = sampleQueuedOrder.vars ∧
      o'.submitted_via = sampleQueuedOrder.submitted_via :=
  ⟨rfl, by decide,
   resubmit_from_queued sampleEnv 42 sampleQueuedOrder rfl (by decide)⟩

/-- C7: for a non-terminal order, restricting the event trace of
`execute` to the core collaborator calls leaves exactly
ledger `recordExecuted`, then accounting `onOrderExecution`, then
`onExecuted` exactly when a position exists for (exchange, symbol);
for `execute_partially` it leaves exactly `recordExecuted` then
`onExecuted` when a position exists.  In particular each invocation
records the executed order in the ledger exactly once. -/
theorem execute_core_effects (env : Env) (silent : Bool) (o : Order)
    (h : ¬(o.status = OrderStatus.canceled ∨ o.status = OrderStatus.executed)) :
    ((Order.execute env silent o).2.filter isCoreEffect =
      [Event.recordExecuted (Order.execute env silent o).1,
       Event.onOrderExecution (Order.execute env silent o).1] ++
      (if env.positions o.exchange o.symbol then
        [Event.onExecuted (Order.execute env silent o).1] else [])) ∧
    ((Order.execute_partially env silent o).2.filter isCoreEffect =
      [Event.recordExecuted (Order.execute_partially env silent o).1] ++
      (if env.positions o.exchange o.symbol then
        [Event.onExecuted (Order.execute_partially env silent o).1] else [])) := by
  push_neg at h
  constructor
  · by_cases hpos : env.positions o.exchange o.symbol <;> cases silent <;>
      simp [Order.execute, Order.is_canceled, Order.is_executed, h.1, h.2,
        isCoreEffect, hpos, List.filter_append, apply_ite (List.filter isCoreEffect)]
  · by_cases hpos : env.positions o.exchange o.symbol <;> cases silent <;>
      simp [Order.execute_partially, isCoreEffect, hpos,
        List.filter_append, apply_ite (List.filter isCoreEffect)]

/-- C7 witness: the effect traces evaluated on the concrete Active
order (for which a position exists). -/
theorem execute_core_effects_witness :
    ¬(sampleOrder.status = OrderStatus.canceled ∨
      sampleOrder.status = OrderStatus.executed) ∧
    ((Order.execute sampleEnv false sampleOrder).2.filter isCoreEffect =
      [Event.recordExecuted (Order.execute sampleEnv false sampleOrder).1,
       Event.onOrderExecution (Order.execute sampleEnv false sampleOrder).1] ++
      (if sampleEnv.positions sampleOrder.exchange sampleOrder.symbol then
        [Event.onExecuted (Order.execute sampleEnv false sampleOrder).1]
       else [])) ∧
    ((Order.execute_partially sampleEnv false sampleOrder).2.filter
        isCoreEffect =
      [Event.recordExecuted
        (Order.execute_partially sampleEnv false sampleOrder).1] ++
      (if sampleEnv.positions sampleOrder.exchange sampleOrder.symbol then
        [Event.onExecuted (Order.execute_partially sampleEnv false sampleOrder).1]
       else [])) :=
  ⟨by decide, execute_core_effects sampleEnv false sampleOrder (by decide)⟩

/-- Helper: every lifecycle operation preserves the forward
status/timestamp implications. -/
theorem statusTimestampInv_applyOp (env : Env) (op : Op) (o : Order)
    (h : statusTimestampInv o) : statusTimestampInv (applyOp env o op) := by
  cases op with
  | queue =>
    simp [applyOp, Order.queue, statusTimestampInv]
  | resubmit newId =>
    by_cases hq : o.status = OrderStatus.queued
    · rcases Order.resubmit_ok_of_queued env newId o hq with ⟨evs, hok⟩
      simp [applyOp, hok, statusTimestampInv]
    · simp [applyOp, Order.resubmit_error_of_not_queued env newId o hq]
      exact h
  | cancel silent source =>
    show statusTimestampInv (Order.cancel env silent source o).1
    unfold Order.cancel
    split
    · exact h
    · split
      · exact h
      · simp [statusTimestampInv]
  | execute silent =>
    show statusTimestampInv (Order.execute env silent o).1
    unfold Order.execute
    split
    · exact h
    · simp [statusTimestampInv]
  | executePartially silent =>
    simp [applyOp, Order.execute_partially, statusTimestampInv]

/-- Helper: the forward status/timestamp implications are preserved by
every run of lifecycle operations. -/
theorem statusTimestampInv_run (steps : List (Env × Op)) (o : Order)
    (h : statusTimestampInv o) : statusTimestampInv (run steps o) := by
  induction steps generalizing o with
  | nil => exact h
  | cons st rest ih =>
    exact ih (applyOp st.1 o st.2) (statusTimestampInv_applyOp st.1 st.2 o h)

/-- C1 counterexample: from the concrete fresh Active order, the run
`execute_partially` then `cancel` leaves both `executed_at` and
`canceled_at` non-null, with status Canceled — so at-most-one-non-null
fails, and `executed_at` is non-null while the status is neither
Executed nor PartiallyFilled. -/
theorem lifecycle_timestamp_invariant_cex :
    sampleOrder.fresh ∧
    (run [(sampleEnv, Op.executePartially false), (sampleEnv, Op.cancel false "")]
        sampleOrder).executed_at = some 1000 ∧
    (run [(sampleEnv, Op.executePartially false), (sampleEnv, Op.cancel false "")]
        sampleOrder).canceled_at = some 1000 ∧
    (run [(sampleEnv, Op.executePartially false), (sampleEnv, Op.cancel false "")]
        sampleOrder).status = OrderStatus.canceled := by
  decide

/-- C1 (amended): from any fresh record, after any sequence of
lifecycle operations, `executed_at` is non-null whenever the status is
Executed or PartiallyFilled, and `canceled_at` is non-null whenever the
status is Canceled.  The converses, and at-most-one-non-null, do not
hold (see the counterexample). -/
theorem lifecycle_timestamp_invariant (steps : List (Env × Op)) (o : Order)
    (h : o.fresh) :
    ((run steps o).status = OrderStatus.executed ∨
      (run steps o).status = OrderStatus.partiallyFilled →
      (run steps o).executed_at ≠ none) ∧
    ((run steps o).status = OrderStatus.canceled →
      (run steps o).canceled_at ≠ none) := by
  have h0 : statusTimestampInv o := by
    rcases h with ⟨he, hc, hs | hs⟩ <;>
      exact ⟨fun h' => by rcases h' with h' | h' <;> simp [hs] at h',
             fun h' => by simp [hs] at h'⟩
  exact statusTimestampInv_run steps o h0

/-- C1 witness: the amended invariant evaluated after a one-step run
(`execute_partially`) from the concrete fresh order. -/
theorem lifecycle_timestamp_invariant_witness :
    sampleOrder.fresh ∧
    (((run [(sampleEnv, Op.executePartially false)] sampleOrder).status =
        OrderStatus.executed ∨
      (run [(sampleEnv, Op.executePartially false)] sampleOrder).status =
        OrderStatus.partiallyFilled →
      (run [(sampleEnv, Op.executePartially false)] sampleOrder).executed_at ≠
        none) ∧
     ((run [(sampleEnv, Op.executePartially false)] sampleOrder).status =
        OrderStatus.canceled →
      (run [(sampleEnv, Op.executePartially false)] sampleOrder).canceled_at ≠
        none)) :=
  ⟨by decide,
   lifecycle_timestamp_invariant [(sampleEnv, Op.executePartially false)]
     sampleOrder (by decide)⟩

end Jesse
